import Mathlib

/- Verification of the Multi-Zone Environmental Monitor firmware.

   Shallow embedding of src/main.cpp: the sensor-inversion functions
   (readNtcTemperature, readLdrLux), the Zone B humidity/temperature
   degrade logic, the alert evaluation, the telemetry JSON encoder, the
   transport gate on the network link, and the fixed-period scheduler of
   the main loop.

   Modelling conventions:
   - C float values are modelled as real numbers; the transcendental
     calls (log, pow) become Real.log and real rpow.  The firmware's
     isfinite checks cannot fire in the real-number model, so they are
     kept as an explicit Boolean predicate parameter isFiniteF threaded
     through the two analog read functions; theorems hold for every such
     predicate.
   - The pure comparison/branching logic of the loop (alerts, Zone B
     state, encoder) is modelled over the rationals, which represent the
     exact float literals the code compares against; millisecond times
     are integers.
-/

namespace Monitor

/- ===== Constants (src/main.cpp lines 32-47) ===== -/

noncomputable def ADC_MAX_VALUE : ℝ := 4095

noncomputable def ADC_REF_VOLTAGE : ℝ := 3.3

noncomputable def BETA : ℝ := 3950

noncomputable def T0_KELVIN : ℝ := 298.15

noncomputable def LDR_GAMMA : ℝ := 0.7

noncomputable def LDR_RL10 : ℝ := 50

noncomputable def LDR_SERIES_RESISTOR : ℝ := 10000

/-- Sentinel returned by readNtcTemperature on every rejection path
(-999.0 in the source). -/
noncomputable def NO_TEMP : ℝ := -999

/-- Sentinel returned by readLdrLux for "too dark" / error (-1.0). -/
noncomputable def TOO_DARK : ℝ := -1

/-- Sentinel returned by readLdrLux for "too bright" / saturated:
the literal zero (0.0). -/
noncomputable def TOO_BRIGHT : ℝ := 0

def TEMP_HIGH_THRESHOLD : ℚ := 30

def LIGHT_LOW_THRESHOLD : ℚ := 100

def HUMIDITY_HIGH_THRESHOLD : ℚ := 70

/- ===== Zone A temperature: readNtcTemperature (lines 66-107) ===== -/

section RealSensors

open scoped Classical

/-- term1 of readNtcTemperature: ADC_MAX_VALUE / analogValue - 1.0
(line 80). -/
noncomputable def ntcTerm1 (analogValue : ℤ) : ℝ :=
  ADC_MAX_VALUE / (analogValue : ℝ) - 1

/-- term4 of readNtcTemperature: log(1/term1)/BETA + 1/T0_KELVIN
(lines 87-89). -/
noncomputable def ntcTerm4 (analogValue : ℤ) : ℝ :=
  Real.log (1 / ntcTerm1 analogValue) / BETA + 1 / T0_KELVIN

/-- celsius of readNtcTemperature: 1/term4 - 273.15 (lines 96-97). -/
noncomputable def ntcCelsius (analogValue : ℤ) : ℝ :=
  1 / ntcTerm4 analogValue - 273.15

/-- Mirrors readNtcTemperature (lines 66-107).  isFiniteF models the C
isfinite check on the float result (line 102); the rail check on line 69
is analogValue <= 0 || analogValue >= ADC_MAX_VALUE. -/
noncomputable def readNtcTemperature (isFiniteF : ℝ → Bool) (analogValue : ℤ) : ℝ :=
  if analogValue ≤ 0 ∨ ADC_MAX_VALUE ≤ (analogValue : ℝ) then NO_TEMP
  else if ntcTerm1 analogValue ≤ 0 then NO_TEMP
  else if |ntcTerm4 analogValue| < 1e-9 then NO_TEMP
  else if isFiniteF (ntcCelsius analogValue) = false then NO_TEMP
  else ntcCelsius analogValue

/- ===== Zone A illuminance: readLdrLux (lines 114-139) ===== -/

/-- voltage of readLdrLux: analogValue / ADC_MAX_VALUE * ADC_REF_VOLTAGE
(line 117). -/
noncomputable def ldrVoltage (analogValue : ℤ) : ℝ :=
  (analogValue : ℝ) / ADC_MAX_VALUE * ADC_REF_VOLTAGE

/-- resistance of readLdrLux: LDR_SERIES_RESISTOR * voltage /
(ADC_REF_VOLTAGE - voltage) (line 128). -/
noncomputable def ldrResistance (analogValue : ℤ) : ℝ :=
  LDR_SERIES_RESISTOR * ldrVoltage analogValue /
    (ADC_REF_VOLTAGE - ldrVoltage analogValue)

/-- lux of readLdrLux: pow(LDR_RL10 * 1e3 * pow(10, LDR_GAMMA) /
resistance, 1.0 / LDR_GAMMA) (line 132). -/
noncomputable def ldrLuxRaw (analogValue : ℤ) : ℝ :=
  (LDR_RL10 * 1000 * (10 : ℝ) ^ LDR_GAMMA / ldrResistance analogValue) ^
    (1 / LDR_GAMMA)

/-- Mirrors readLdrLux (lines 114-139): dark guard voltage <= 0.01,
bright guard voltage >= ADC_REF_VOLTAGE - 0.01, non-positive resistance
maps to 0.0, non-finite lux maps to -1.0. -/
noncomputable def readLdrLux (isFiniteF : ℝ → Bool) (analogValue : ℤ) : ℝ :=
  if ldrVoltage analogValue ≤ 0.01 then TOO_DARK
  else if ADC_REF_VOLTAGE - 0.01 ≤ ldrVoltage analogValue then TOO_BRIGHT
  else if ldrResistance analogValue ≤ 0 then TOO_BRIGHT
  else if isFiniteF (ldrLuxRaw analogValue) = false then TOO_DARK
  else ldrLuxRaw analogValue

end RealSensors

/- ===== Zone B state and DHT update (lines 54-57 and 325-334) ===== -/

/-- The two float globals that persist across cycles: temperatureCZ2 and
humidityZ2 (lines 56-57), both initialised to -999.0 (NO_DATA). -/
structure ZoneBState where
  temperatureCZ2 : ℚ
  humidityZ2 : ℚ

/-- One DHT read outcome: some (temperature, humidity) when
dht.getStatus() == ERROR_NONE, none on a fault. -/
def DhtRead : Type := Option (ℚ × ℚ)

/-- Mirrors lines 326-334: on success both fields are overwritten
unconditionally; on fault each field is escalated from -999.0 to -998.0
if it currently equals -999.0 and is otherwise left unchanged. -/
def dhtUpdate (st : ZoneBState) (reading : Option (ℚ × ℚ)) : ZoneBState :=
  match reading with
  | some p => ⟨p.1, p.2⟩
  | none =>
    ⟨if st.temperatureCZ2 = -999 then -998 else st.temperatureCZ2,
     if st.humidityZ2 = -999 then -998 else st.humidityZ2⟩

/-- The device lifetime: the two globals start at -999.0 (lines 56-57)
and each cycle applies dhtUpdate once (lines 325-334). -/
def runDht (reads : List (Option (ℚ × ℚ))) : ZoneBState :=
  reads.foldl dhtUpdate ⟨-999, -999⟩

/-- Accumulates the payload of the most recent successful read, seeded
with acc (used to state the lifetime invariant of runDht). -/
def lastSomeStep (a : Option (ℚ × ℚ)) (r : Option (ℚ × ℚ)) : Option (ℚ × ℚ) :=
  match r with
  | some p => some p
  | none => a

/-- The most recent successful DHT read in reads, or acc if none. -/
def lastSome (acc : Option (ℚ × ℚ)) (reads : List (Option (ℚ × ℚ))) :
    Option (ℚ × ℚ) :=
  reads.foldl lastSomeStep acc

/-- Lifetime invariant of one ZoneBState relative to the most recent
successful read: each field is NO_DATA (-999), STALE_ERROR (-998), or
exactly the corresponding component of the most recent success. -/
def ZoneBInv (st : ZoneBState) (acc : Option (ℚ × ℚ)) : Prop :=
  (st.temperatureCZ2 = -999 ∨ st.temperatureCZ2 = -998 ∨
    Option.map Prod.fst acc = some st.temperatureCZ2) ∧
  (st.humidityZ2 = -999 ∨ st.humidityZ2 = -998 ∨
    Option.map Prod.snd acc = some st.humidityZ2)

/- ===== Alert evaluation (lines 343-359) ===== -/

/-- Line 343: temperatureCZ1 != -999.0 && temperatureCZ1 >
TEMP_HIGH_THRESHOLD. -/
def z1_temp_alert (t : ℚ) : Bool :=
  decide (t ≠ -999 ∧ TEMP_HIGH_THRESHOLD < t)

/-- Line 344: luxZ1 != -1.0 && luxZ1 < LIGHT_LOW_THRESHOLD && luxZ1 !=
0.0. -/
def z1_lux_alert (l : ℚ) : Bool :=
  decide (l ≠ -1 ∧ l < LIGHT_LOW_THRESHOLD ∧ l ≠ 0)

/-- Lines 345-347: zone1_alert = z1_temp_alert || z1_lux_alert. -/
def zone1_alert (t l : ℚ) : Bool :=
  z1_temp_alert t || z1_lux_alert l

/-- Line 350: temperatureCZ2 != -999.0 && temperatureCZ2 != -998.0 &&
temperatureCZ2 > TEMP_HIGH_THRESHOLD. -/
def z2_temp_alert (t : ℚ) : Bool :=
  decide (t ≠ -999 ∧ t ≠ -998 ∧ TEMP_HIGH_THRESHOLD < t)

/-- Line 351: humidityZ2 != -999.0 && humidityZ2 != -998.0 && humidityZ2
> HUMIDITY_HIGH_THRESHOLD. -/
def z2_humidity_alert (h : ℚ) : Bool :=
  decide (h ≠ -999 ∧ h ≠ -998 ∧ HUMIDITY_HIGH_THRESHOLD < h)

/-- Lines 352-354: zone2_alert = z2_temp_alert || z2_humidity_alert. -/
def zone2_alert (t h : ℚ) : Bool :=
  z2_temp_alert t || z2_humidity_alert h

/-- Lines 357-359: high_temp_alert is set exactly when z1_temp_alert ||
z2_temp_alert. -/
def high_temp_alert (t1 t2 : ℚ) : Bool :=
  z1_temp_alert t1 || z2_temp_alert t2

/-- Line 382: digitalWrite(FAN_LED_PIN, high_temp_alert). -/
def fanLedState (t1 t2 : ℚ) : Bool :=
  high_temp_alert t1 t2

/- ===== Scheduler (lines 319, 370-379, 463-476) ===== -/

/-- Target loop period in ms (the literal 30000 on line 467). -/
def TARGET_PERIOD : ℤ := 30000

/-- Lines 467-473: delayTime = 30000 - loopDuration - buzzerDelay,
clamped to 100 when negative. -/
def computeDelayTime (loopDuration buzzerMs : ℤ) : ℤ :=
  if TARGET_PERIOD - loopDuration - buzzerMs < 0 then 100
  else TARGET_PERIOD - loopDuration - buzzerMs

/-- Lines 470-473: the overrun warning is printed exactly when the raw
delayTime is negative. -/
def overrunWarning (loopDuration buzzerMs : ℤ) : Bool :=
  decide (TARGET_PERIOD - loopDuration - buzzerMs < 0)

/-- Lines 371-379: buzzerDelay is 100 when any alert is active (the
blocking delay(100) beep), else 0. -/
def buzzerPulse (anyAlert : Bool) : ℤ :=
  if anyAlert then 100 else 0

/-- The loop duration measured between the millis() calls on lines 319
and 464.  The buzzer delay(100) on line 374 executes between those two
calls, so the measured duration contains it: loopDuration = all other
work plus the buzzer pulse. -/
def cycleLoopDuration (otherWork : ℤ) (anyAlert : Bool) : ℤ :=
  otherWork + buzzerPulse anyAlert

/-- Start-to-start period of one cycle: the measured loop duration plus
the delay(delayTime) sleep on line 476. -/
def cycleStartToStart (otherWork : ℤ) (anyAlert : Bool) : ℤ :=
  cycleLoopDuration otherWork anyAlert +
    computeDelayTime (cycleLoopDuration otherWork anyAlert) (buzzerPulse anyAlert)

/- ===== Telemetry encoder (lines 434-454) ===== -/

/-- Arduino String(x, 1): decimal rendering with exactly one fractional
digit (the value rounded to tenths). -/
def fmt1 (x : ℚ) : String :=
  (if round (x * 10) < 0 then "-" else "") ++
    toString ((round (x * 10)).natAbs / 10) ++ "." ++
    toString ((round (x * 10)).natAbs % 10)

/-- C cast (int)x: truncation toward zero. -/
def truncInt (x : ℚ) : ℤ :=
  if x < 0 then -(Int.floor (-x)) else Int.floor x

/-- Rendering of a C++ bool into the JSON payload. -/
def boolStr (b : Bool) : String :=
  if b then "true" else "false"

/-- Line 438: null when temperatureCZ1 == -999.0, else String(t, 1). -/
def jsonZ1Temp (t : ℚ) : String :=
  if t = -999 then "null" else fmt1 t

/-- Line 441: "DARK" when luxZ1 == -1.0, "BRIGHT" when luxZ1 == 0.0,
else String((int)luxZ1). -/
def jsonLux (l : ℚ) : String :=
  if l = -1 then "\"DARK\""
  else if l = 0 then "\"BRIGHT\""
  else toString (truncInt l)

/-- Lines 446 and 448: null when the field is <= -998.0, else
String(v, 1). -/
def jsonZ2Field (v : ℚ) : String :=
  if v ≤ -998 then "null" else fmt1 v

/-- Mirrors the jsonData concatenation of lines 435-454, in the same
append order. -/
def encodeTelemetry (t1 l : ℚ) (a1 : Bool) (t2 h2 : ℚ) (a2 fanOn : Bool) :
    String :=
  "\x7b" ++ "\"zone1\":\x7b" ++ "\"tempC\":" ++ jsonZ1Temp t1 ++
    ",\"lux\":" ++ jsonLux l ++
    ",\"alert\":" ++ boolStr a1 ++
    "\x7d," ++ "\"zone2\":\x7b\"dhtTempC\":" ++ jsonZ2Field t2 ++
    ",\"humidity\":" ++ jsonZ2Field h2 ++
    ",\"alert\":" ++ boolStr a2 ++
    "\x7d," ++ "\"fan_on\":" ++ boolStr fanOn ++ "\x7d"

/- ===== Telemetry transport (lines 208-268) ===== -/

/-- Outcome of sendDataToBackend: skipped when the link is down (line
264), response c when http.POST returned a positive code c (line 243),
transportError c when it returned an error code c <= 0 (line 254).
None of these is fatal; the function always returns to the loop. -/
inductive SendOutcome where
  | skipped
  | response (code : ℤ)
  | transportError (code : ℤ)

/-- Mirrors sendDataToBackend (lines 208-268): result outcome paired
with the number of HTTP requests performed.  When WiFi.status() !=
WL_CONNECTED the body is skipped entirely (zero requests); otherwise
exactly one http.POST is issued. -/
def sendDataToBackend (wifiConnected : Bool) (postResult : ℤ) :
    SendOutcome × ℕ :=
  if wifiConnected then
    (if 0 < postResult then SendOutcome.response postResult
     else SendOutcome.transportError postResult, 1)
  else (SendOutcome.skipped, 0)

/-- Tail of one loop iteration (steps 10-11, lines 461-476): the send
outcome and request count, then the delay computation, which runs
unconditionally after the send. -/
def loopTail (wifiConnected : Bool) (postResult loopDuration buzzerMs : ℤ) :
    SendOutcome × ℕ × ℤ :=
  ((sendDataToBackend wifiConnected postResult).1,
   (sendDataToBackend wifiConnected postResult).2,
   computeDelayTime loopDuration buzzerMs)

/- ===== Theorems ===== -/

/-- C1: In every cycle where the computed sleep is non-negative, the
scheduler's sleep time equals TARGET_PERIOD minus the measured loop
duration minus the buzzer pulse (e.g. 30000 - 500 - 100 = 29400), the
loop sleeps exactly that amount and no overrun warning is printed; when
the computed sleep is negative it is clamped to the positive floor 100
and the overrun warning is printed (e.g. at a measured duration of
31000 ms). -/
theorem scheduler_sleep_formula (loopDuration buzzerMs : ℤ) :
    (0 ≤ TARGET_PERIOD - loopDuration - buzzerMs →
      computeDelayTime loopDuration buzzerMs =
        TARGET_PERIOD - loopDuration - buzzerMs ∧
      overrunWarning loopDuration buzzerMs = false) ∧
    (TARGET_PERIOD - loopDuration - buzzerMs < 0 →
      computeDelayTime loopDuration buzzerMs = 100 ∧
      0 < computeDelayTime loopDuration buzzerMs ∧
      overrunWarning loopDuration buzzerMs = true) ∧
    computeDelayTime 500 100 = 29400 ∧
    computeDelayTime 31000 0 = 100 ∧
    overrunWarning 31000 0 = true := by
  refine ⟨fun h => ?_, fun h => ?_, by decide, by decide, by decide⟩
  · rw [computeDelayTime, if_neg (not_lt.mpr h)]
    exact ⟨rfl, by simp [overrunWarning, not_lt.mpr h]⟩
  · rw [computeDelayTime, if_pos h]
    exact ⟨rfl, by decide, by simp [overrunWarning, h]⟩

/-- Witness for C1 at the spec's example: measured duration 500 ms,
buzzer pulse 100 ms, computed sleep 29400 ms, no overrun warning. -/
theorem scheduler_sleep_formula_witness :
    0 ≤ Monitor.TARGET_PERIOD - 500 - 100 ∧
    Monitor.computeDelayTime 500 100 = Monitor.TARGET_PERIOD - 500 - 100 ∧
    Monitor.overrunWarning 500 100 = false :=
  ⟨by decide, (scheduler_sleep_formula 500 100).1 (by decide)⟩

/-- C2 (code bug): the buzzer pulse is subtracted twice.  The delay(100)
beep on line 374 runs between the millis() calls of lines 319 and 464,
so it is already inside the measured loop duration, and line 467
subtracts buzzerDelay again.  With 400 ms of other work and an active
alert the start-to-start period is 29900 ms, not TARGET_PERIOD = 30000,
even though there is no overrun. -/
theorem buzzer_double_subtracted :
    cycleStartToStart 400 true = 29900 ∧
    cycleStartToStart 400 true ≠ TARGET_PERIOD ∧
    overrunWarning (cycleLoopDuration 400 true) (buzzerPulse true) = false ∧
    cycleStartToStart 400 false = TARGET_PERIOD := by
  refine ⟨by decide, by decide, by decide, by decide⟩

/-- C9: when the network link is down, sendDataToBackend performs zero
HTTP requests and yields the skipped outcome (not an error), and the
scheduler computation after it still runs; when the link is up exactly
one request is performed, and the delay computation after the send is
the same whatever the response code (non-2xx or transport error
included). -/
theorem transport_link_behavior (postResult loopDuration buzzerMs : ℤ) :
    loopTail false postResult loopDuration buzzerMs =
      (SendOutcome.skipped, 0, computeDelayTime loopDuration buzzerMs) ∧
    (sendDataToBackend false postResult).2 = 0 ∧
    (sendDataToBackend true postResult).2 = 1 ∧
    (loopTail true postResult loopDuration buzzerMs).2.2 =
      computeDelayTime loopDuration buzzerMs ∧
    (loopTail false postResult loopDuration buzzerMs).2.2 =
      computeDelayTime loopDuration buzzerMs :=
  ⟨rfl, rfl, rfl, rfl, rfl⟩

/-- C3: on a DHT fault each Zone B field is treated independently: a
field holding NO_DATA (-999.0) is escalated to STALE_ERROR (-998.0),
while a field holding any other value (e.g. a prior valid humidity of
45.0) is left completely unchanged; on a successful read both stored
fields are overwritten unconditionally. -/
theorem zoneB_degrade_rule (st : ZoneBState) (t h : ℚ) :
    dhtUpdate st (some (t, h)) = ⟨t, h⟩ ∧
    (st.temperatureCZ2 = -999 → (dhtUpdate st none).temperatureCZ2 = -998) ∧
    (st.temperatureCZ2 ≠ -999 →
      (dhtUpdate st none).temperatureCZ2 = st.temperatureCZ2) ∧
    (st.humidityZ2 = -999 → (dhtUpdate st none).humidityZ2 = -998) ∧
    (st.humidityZ2 ≠ -999 → (dhtUpdate st none).humidityZ2 = st.humidityZ2) ∧
    (st.humidityZ2 = 45 → (dhtUpdate st none).humidityZ2 = 45) := by
  refine ⟨rfl, fun h1 => ?_, fun h1 => ?_, fun h1 => ?_, fun h1 => ?_,
    fun h1 => ?_⟩
  · simp [dhtUpdate, h1]
  · simp [dhtUpdate, h1]
  · simp [dhtUpdate, h1]
  · simp [dhtUpdate, h1]
  · rw [dhtUpdate]
    simp only [h1]
    norm_num

/-- Witness for C3: starting from temperature NO_DATA and a prior valid
humidity of 45.0, a failed read escalates the temperature to -998.0 and
leaves the humidity at 45.0. -/
theorem zoneB_degrade_rule_witness :
    (ZoneBState.mk (-999) 45).temperatureCZ2 = -999 ∧
    (Monitor.dhtUpdate ⟨-999, 45⟩ none).temperatureCZ2 = -998 ∧
    (Monitor.dhtUpdate ⟨-999, 45⟩ none).humidityZ2 = 45 :=
  ⟨rfl, (zoneB_degrade_rule ⟨-999, 45⟩ 0 0).2.1 rfl,
    (zoneB_degrade_rule ⟨-999, 45⟩ 0 0).2.2.2.2.2 rfl⟩

/-- Folding dhtUpdate preserves the Zone B lifetime invariant, with the
most-recent-success accumulator folded alongside. -/
lemma foldl_dhtUpdate_inv (reads : List (Option (ℚ × ℚ))) :
    ∀ (st : ZoneBState) (acc : Option (ℚ × ℚ)), ZoneBInv st acc →
      ZoneBInv (reads.foldl dhtUpdate st) (lastSome acc reads) := by
  induction reads with
  | nil => exact fun st acc h => h
  | cons r rest ih =>
    intro st acc h
    simp only [List.foldl_cons, lastSome] at *
    apply ih
    cases r with
    | some p =>
      refine ⟨Or.inr (Or.inr ?_), Or.inr (Or.inr ?_)⟩ <;>
        simp [dhtUpdate, lastSomeStep]
    | none =>
      obtain ⟨h1, h2⟩ := h
      constructor
      · by_cases hc : st.temperatureCZ2 = -999
        · exact Or.inr (Or.inl (by simp [dhtUpdate, lastSomeStep, hc]))
        · rcases h1 with h1 | h1 | h1
          · exact absurd h1 hc
          · exact Or.inr (Or.inl (by simp [dhtUpdate, lastSomeStep, hc, h1]))
          · exact Or.inr (Or.inr (by simpa [dhtUpdate, lastSomeStep, hc] using h1))
      · by_cases hc : st.humidityZ2 = -999
        · exact Or.inr (Or.inl (by simp [dhtUpdate, lastSomeStep, hc]))
        · rcases h2 with h2 | h2 | h2
          · exact absurd h2 hc
          · exact Or.inr (Or.inl (by simp [dhtUpdate, lastSomeStep, hc, h2]))
          · exact Or.inr (Or.inr (by simpa [dhtUpdate, lastSomeStep, hc] using h2))

/-- C10 (implicit): STALE_ERROR is absorbing under failed reads — a
field equal to -998.0 stays -998.0 after another fault — and across the
whole lifetime (any sequence of reads starting from both fields at
-999.0) each field only ever holds NO_DATA, STALE_ERROR, or the
corresponding component of the most recent successful read. -/
theorem zoneB_stale_absorbing (st : ZoneBState)
    (reads : List (Option (ℚ × ℚ))) :
    (st.temperatureCZ2 = -998 → (dhtUpdate st none).temperatureCZ2 = -998) ∧
    (st.humidityZ2 = -998 → (dhtUpdate st none).humidityZ2 = -998) ∧
    ZoneBInv (runDht reads) (lastSome none reads) := by
  refine ⟨fun h1 => ?_, fun h1 => ?_, ?_⟩
  · rw [dhtUpdate]
    simp only [h1]
    norm_num
  · rw [dhtUpdate]
    simp only [h1]
    norm_num
  · exact foldl_dhtUpdate_inv reads ⟨-999, -999⟩ none ⟨Or.inl rfl, Or.inl rfl⟩

/-- Witness for C10: a state with both fields at STALE_ERROR keeps them
after another fault, and the invariant holds after a successful read
followed by a fault. -/
theorem zoneB_stale_absorbing_witness :
    (ZoneBState.mk (-998) (-998)).temperatureCZ2 = -998 ∧
    (Monitor.dhtUpdate ⟨-998, -998⟩ none).temperatureCZ2 = -998 ∧
    (Monitor.dhtUpdate ⟨-998, -998⟩ none).humidityZ2 = -998 ∧
    ZoneBInv (runDht [some (25, 45), none])
      (lastSome none [some (25, 45), none]) := by
  have h := zoneB_stale_absorbing ⟨-998, -998⟩ [some (25, 45), none]
  exact ⟨rfl, h.1 rfl, h.2.1 rfl, h.2.2⟩

/-- C6: for every combination of readings a sentinel never triggers an
alert: NO_TEMP (-999) never sets the Zone A temperature alert, TOO_DARK
(-1) and TOO_BRIGHT (0) never set the light alert, and NO_DATA (-999) or
STALE_ERROR (-998) never set the Zone B temperature or humidity alert;
in each case the zone alert reduces to its other component alone. -/
theorem sentinel_never_alerts (t1 l t2 h2 : ℚ) :
    (t1 = -999 → z1_temp_alert t1 = false ∧
      zone1_alert t1 l = z1_lux_alert l) ∧
    ((l = -1 ∨ l = 0) → z1_lux_alert l = false ∧
      zone1_alert t1 l = z1_temp_alert t1) ∧
    ((t2 = -999 ∨ t2 = -998) → z2_temp_alert t2 = false ∧
      zone2_alert t2 h2 = z2_humidity_alert h2) ∧
    ((h2 = -999 ∨ h2 = -998) → z2_humidity_alert h2 = false ∧
      zone2_alert t2 h2 = z2_temp_alert t2) := by
  refine ⟨fun h => ?_, fun h => ?_, fun h => ?_, fun h => ?_⟩
  · subst h
    exact ⟨by decide, by simp [zone1_alert, z1_temp_alert]⟩
  · rcases h with h | h <;> subst h <;>
      exact ⟨by decide, by simp [zone1_alert, z1_lux_alert, LIGHT_LOW_THRESHOLD]⟩
  · rcases h with h | h <;> subst h <;>
      exact ⟨by decide, by simp [zone2_alert, z2_temp_alert, TEMP_HIGH_THRESHOLD]⟩
  · rcases h with h | h <;> subst h <;>
      exact ⟨by decide,
        by simp [zone2_alert, z2_humidity_alert, HUMIDITY_HIGH_THRESHOLD]⟩

/-- Witness for C6 at the sentinel values themselves. -/
theorem sentinel_never_alerts_witness :
    (-999 : ℚ) = -999 ∧
    z1_temp_alert (-999) = false ∧
    zone1_alert (-999) (-1) = z1_lux_alert (-1) ∧
    z1_lux_alert (-1) = false ∧
    z2_temp_alert (-999) = false ∧
    Monitor.z2_humidity_alert (-998) = false := by
  have h := sentinel_never_alerts (-999) (-1) (-999) (-998)
  exact ⟨rfl, (h.1 rfl).1, (h.1 rfl).2, (h.2.1 (Or.inl rfl)).1,
    (h.2.2.1 (Or.inl rfl)).1, (h.2.2.2 (Or.inr rfl)).1⟩

/-- C7: in every cycle the aggregate high-temperature flag equals
z1_temp_alert OR z2_temp_alert, the fan-proxy LED is driven by exactly
this flag, and when neither temperature alert is set the flag (and the
fan) stay off — the flag does not even take the light or humidity
readings as inputs, so a light or humidity alert alone can never set
it. -/
theorem high_temp_flag (t1 t2 : ℚ) :
    high_temp_alert t1 t2 = (z1_temp_alert t1 || z2_temp_alert t2) ∧
    fanLedState t1 t2 = high_temp_alert t1 t2 ∧
    (z1_temp_alert t1 = false → z2_temp_alert t2 = false →
      high_temp_alert t1 t2 = false ∧ fanLedState t1 t2 = false) := by
  refine ⟨rfl, rfl, fun ha hb => ?_⟩
  constructor <;> simp [high_temp_alert, fanLedState, ha, hb]

/-- Witness for C7: temperatures 20 and 25 (below the 30.0 threshold)
leave the aggregate flag and the fan off, whatever the light or humidity
situation is. -/
theorem high_temp_flag_witness :
    z1_temp_alert 20 = false ∧
    Monitor.z2_temp_alert 25 = false ∧
    high_temp_alert 20 25 = false ∧
    fanLedState 20 25 = false := by
  have h := (high_temp_flag 20 25).2.2 (by decide) (by decide)
  exact ⟨by decide, by decide, h.1, h.2⟩

/-- C4: for every raw ADC code at or beyond either rail (code <= 0 or
code >= ADC_MAX_VALUE) readNtcTemperature returns NO_TEMP; a
non-positive resistance ratio (term1 <= 0) and a result the platform
reports as non-finite also return NO_TEMP; and the function never
surfaces a partial value — its result is either NO_TEMP or the fully
validated celsius value, with every guard (rails, ratio, near-zero
denominator, finiteness) known to have passed. -/
theorem ntc_rejection_paths (isFiniteF : ℝ → Bool) (analogValue : ℤ) :
    ((analogValue ≤ 0 ∨ ADC_MAX_VALUE ≤ (analogValue : ℝ)) →
      readNtcTemperature isFiniteF analogValue = NO_TEMP) ∧
    (ntcTerm1 analogValue ≤ 0 →
      readNtcTemperature isFiniteF analogValue = NO_TEMP) ∧
    (isFiniteF (ntcCelsius analogValue) = false →
      readNtcTemperature isFiniteF analogValue = NO_TEMP) ∧
    (readNtcTemperature isFiniteF analogValue = NO_TEMP ∨
      (readNtcTemperature isFiniteF analogValue = ntcCelsius analogValue ∧
       isFiniteF (ntcCelsius analogValue) = true ∧
       0 < analogValue ∧ (analogValue : ℝ) < ADC_MAX_VALUE ∧
       0 < ntcTerm1 analogValue ∧ 1e-9 ≤ |ntcTerm4 analogValue|)) := by
  refine ⟨fun h => ?_, fun h => ?_, fun h => ?_, ?_⟩
  · rw [readNtcTemperature, if_pos h]
  · rw [readNtcTemperature]
    split_ifs <;> rfl
  · rw [readNtcTemperature]
    split_ifs <;> rfl
  · rw [readNtcTemperature]
    split_ifs with h1 h2 h3 h4
    · exact Or.inl rfl
    · exact Or.inl rfl
    · exact Or.inl rfl
    · exact Or.inl rfl
    · push_neg at h1
      refine Or.inr ⟨rfl, ?_, h1.1, h1.2, not_le.mp h2, not_lt.mp h3⟩
      simpa using h4

/-- Witness for C4: the upper rail code 4095 is rejected, and a result
flagged non-finite (isFiniteF constantly false) at the in-range code
2048 is rejected too; both return NO_TEMP. -/
theorem ntc_rejection_paths_witness :
    Monitor.readNtcTemperature (fun _ => true) 4095 = NO_TEMP ∧
    Monitor.readNtcTemperature (fun _ => false) 2048 = NO_TEMP :=
  ⟨(ntc_rejection_paths (fun _ => true) 4095).1
      (Or.inr (by norm_num [ADC_MAX_VALUE])),
   (ntc_rejection_paths (fun _ => false) 2048).2.2.1 rfl⟩

/-- C5 (amended): the guard is the absolute constant 0.01 V, not
0.01 times ADC_REF_VOLTAGE: for every ADC code whose derived voltage is
at or below 0.01 V the illuminance read returns TOO_DARK, and for every
voltage at or above ADC_REF_VOLTAGE - 0.01 V it returns TOO_BRIGHT (the
literal zero). -/
theorem ldr_guard_absolute (isFiniteF : ℝ → Bool) (analogValue : ℤ) :
    (ldrVoltage analogValue ≤ 0.01 →
      readLdrLux isFiniteF analogValue = TOO_DARK) ∧
    (ADC_REF_VOLTAGE - 0.01 ≤ ldrVoltage analogValue →
      readLdrLux isFiniteF analogValue = TOO_BRIGHT) := by
  constructor
  · intro h
    rw [readLdrLux, if_pos h]
  · intro h
    have hnd : ¬ ldrVoltage analogValue ≤ 0.01 := by
      intro hv
      have : ADC_REF_VOLTAGE - 0.01 ≤ 0.01 := le_trans h hv
      norm_num [ADC_REF_VOLTAGE] at this
    rw [readLdrLux, if_neg hnd, if_pos h]

/-- Witness for C5 (amended): code 0 gives voltage 0 V, below the dark
guard, hence TOO_DARK; code 4095 gives voltage 3.3 V, above the bright
guard, hence TOO_BRIGHT. -/
theorem ldr_guard_absolute_witness :
    ldrVoltage 0 ≤ 0.01 ∧
    Monitor.readLdrLux (fun _ => true) 0 = TOO_DARK ∧
    ADC_REF_VOLTAGE - 0.01 ≤ ldrVoltage 4095 ∧
    Monitor.readLdrLux (fun _ => true) 4095 = TOO_BRIGHT := by
  have h0 : ldrVoltage 0 ≤ 0.01 := by
    norm_num [ldrVoltage, ADC_MAX_VALUE, ADC_REF_VOLTAGE]
  have h1 : ADC_REF_VOLTAGE - 0.01 ≤ ldrVoltage 4095 := by
    norm_num [ldrVoltage, ADC_MAX_VALUE, ADC_REF_VOLTAGE]
  exact ⟨h0, (ldr_guard_absolute (fun _ => true) 0).1 h0, h1,
    (ldr_guard_absolute (fun _ => true) 4095).2 h1⟩

/-- C5 counterexample: the claim reads the guard as approximately
0.01 * ADC_REF_VOLTAGE = 0.033 V.  At ADC code 20 the derived voltage is
66/4095 V, about 0.0161 V, which is at or below 0.033 V, yet the read
does not return TOO_DARK: it falls through to the lux computation and
returns a strictly positive lux value. -/
theorem ldr_guard_counterexample :
    ldrVoltage 20 ≤ 0.01 * ADC_REF_VOLTAGE ∧
    Monitor.readLdrLux (fun _ => true) 20 ≠ TOO_DARK := by
  have hv : ldrVoltage 20 = 66 / 4095 := by
    rw [ldrVoltage, ADC_MAX_VALUE, ADC_REF_VOLTAGE]
    norm_num
  constructor
  · rw [hv, ADC_REF_VOLTAGE]
    norm_num
  · have hd : ¬ ldrVoltage 20 ≤ 0.01 := by
      rw [hv]
      norm_num
    have hb : ¬ ADC_REF_VOLTAGE - 0.01 ≤ ldrVoltage 20 := by
      rw [hv, ADC_REF_VOLTAGE]
      norm_num
    have hres : 0 < ldrResistance 20 := by
      rw [ldrResistance, hv, ADC_REF_VOLTAGE, LDR_SERIES_RESISTOR]
      norm_num
    have hlux : 0 < ldrLuxRaw 20 := by
      rw [ldrLuxRaw]
      apply Real.rpow_pos_of_pos
      apply div_pos _ hres
      have h10 : (0 : ℝ) < (10 : ℝ) ^ LDR_GAMMA :=
        Real.rpow_pos_of_pos (by norm_num) _
      rw [LDR_RL10]
      nlinarith
    have hfin : ¬ ((fun _ : ℝ => true) (ldrLuxRaw 20) = false) := by simp
    rw [readLdrLux, if_neg hd, if_neg hb, if_neg (not_le.mpr hres), if_neg hfin]
    rw [TOO_DARK]
    intro hcontra
    rw [hcontra] at hlux
    norm_num at hlux

/-- A single decimal digit renders as one character. -/
lemma toString_digit_length (d : ℕ) (hd : d < 10) : (toString d).length = 1 := by
  interval_cases d <;> rfl

/-- Every fmt1 rendering contains a decimal point. -/
lemma dot_mem_fmt1 (x : ℚ) : Char.ofNat 46 ∈ (fmt1 x).data := by
  rw [fmt1]
  simp [String.data_append]

/-- fmt1 never renders as the string null. -/
lemma fmt1_ne_null (x : ℚ) : fmt1 x ≠ "null" := by
  intro h
  have hd := dot_mem_fmt1 x
  rw [h] at hd
  simp at hd

/-- The Zone B JSON fields are null exactly at the two sentinels, for
any field value that is a sentinel or above the sentinel range. -/
lemma jsonZ2Field_null_iff (v : ℚ) (hv : v = -999 ∨ v = -998 ∨ -998 < v) :
    (jsonZ2Field v = "null" ↔ (v = -999 ∨ v = -998)) := by
  constructor
  · intro h
    by_cases hc : v ≤ -998
    · rcases hv with e | e | e
      · exact Or.inl e
      · exact Or.inr e
      · exact absurd hc (not_le.mpr e)
    · rw [jsonZ2Field, if_neg hc] at h
      exact absurd h (fmt1_ne_null v)
  · intro h
    rcases h with e | e <;> subst e <;> rw [jsonZ2Field, if_pos (by norm_num)]

/-- C8: the telemetry encoder produces the record in the fixed field
order zone1.tempC, zone1.lux, zone1.alert, zone2.dhtTempC,
zone2.humidity, zone2.alert, fan_on; zone1.tempC is null exactly when
the temperature is NO_TEMP (-999); lux renders as the string DARK for
TOO_DARK (-1), BRIGHT for TOO_BRIGHT (0), and as an integer otherwise;
the Zone B fields are null exactly at NO_DATA or STALE_ERROR (for field
values that are sentinels or above the sentinel range, the only values
the device produces); fmt1 renders with exactly one fractional digit;
and the spec's concrete scenario produces exactly the expected string. -/
theorem telemetry_encoding (t1 l t2 h2 : ℚ) (a1 a2 fanOn : Bool)
    (ht2 : t2 = -999 ∨ t2 = -998 ∨ -998 < t2)
    (hh2 : h2 = -999 ∨ h2 = -998 ∨ -998 < h2) :
    encodeTelemetry t1 l a1 t2 h2 a2 fanOn =
      "\x7b" ++ "\"zone1\":\x7b" ++ "\"tempC\":" ++ jsonZ1Temp t1 ++
      ",\"lux\":" ++ jsonLux l ++ ",\"alert\":" ++ boolStr a1 ++
      "\x7d," ++ "\"zone2\":\x7b\"dhtTempC\":" ++ jsonZ2Field t2 ++
      ",\"humidity\":" ++ jsonZ2Field h2 ++ ",\"alert\":" ++ boolStr a2 ++
      "\x7d," ++ "\"fan_on\":" ++ boolStr fanOn ++ "\x7d" ∧
    (jsonZ1Temp t1 = "null" ↔ t1 = -999) ∧
    jsonLux (-1) = "\"DARK\"" ∧
    jsonLux 0 = "\"BRIGHT\"" ∧
    (l ≠ -1 → l ≠ 0 → jsonLux l = toString (truncInt l)) ∧
    (jsonZ2Field t2 = "null" ↔ (t2 = -999 ∨ t2 = -998)) ∧
    (jsonZ2Field h2 = "null" ↔ (h2 = -999 ∨ h2 = -998)) ∧
    (∀ x : ℚ, ∃ (p : String) (d : ℕ), fmt1 x = p ++ "." ++ toString d ∧
      d < 10 ∧ (toString d).length = 1) ∧
    encodeTelemetry 32.4 (-1) true 28.1 75.3 true true =
      "\x7b\"zone1\":\x7b\"tempC\":32.4,\"lux\":\"DARK\",\"alert\":true\x7d,\"zone2\":\x7b\"dhtTempC\":28.1,\"humidity\":75.3,\"alert\":true\x7d,\"fan_on\":true\x7d" := by
  refine ⟨rfl, ?_, ?_, ?_, ?_, jsonZ2Field_null_iff t2 ht2,
    jsonZ2Field_null_iff h2 hh2, ?_, ?_⟩
  · constructor
    · intro h
      by_cases hc : t1 = -999
      · exact hc
      · rw [jsonZ1Temp, if_neg hc] at h
        exact absurd h (fmt1_ne_null t1)
    · intro h
      rw [jsonZ1Temp, if_pos h]
  · rw [jsonLux, if_pos rfl]
  · rw [jsonLux, if_neg (by norm_num), if_pos rfl]
  · intro h1 h2q
    rw [jsonLux, if_neg h1, if_neg h2q]
  · intro x
    refine ⟨(if round (x * 10) < 0 then "-" else "") ++
      toString ((round (x * 10)).natAbs / 10), (round (x * 10)).natAbs % 10,
      rfl, Nat.mod_lt _ (by norm_num),
      toString_digit_length _ (Nat.mod_lt _ (by norm_num))⟩
  · have e1 : jsonZ1Temp 32.4 = "32.4" := by
      rw [jsonZ1Temp, if_neg (by norm_num), fmt1]
      have h1 : round ((32.4 : ℚ) * 10) = 324 := by norm_num [round_eq]
      rw [h1]
      decide
    have e2 : jsonLux (-1) = "\"DARK\"" := by rw [jsonLux, if_pos rfl]
    have e3 : jsonZ2Field 28.1 = "28.1" := by
      rw [jsonZ2Field, if_neg (by norm_num), fmt1]
      have h1 : round ((28.1 : ℚ) * 10) = 281 := by norm_num [round_eq]
      rw [h1]
      decide
    have e4 : jsonZ2Field 75.3 = "75.3" := by
      rw [jsonZ2Field, if_neg (by norm_num), fmt1]
      have h1 : round ((75.3 : ℚ) * 10) = 753 := by norm_num [round_eq]
      rw [h1]
      decide
    rw [encodeTelemetry, e1, e2, e3, e4]
    rfl

/-- Witness for C8 at the spec's scenario values: Zone B temperature
28.1 and humidity 75.3 satisfy the snapshot hypothesis, and the Zone B
temperature field is not null. -/
theorem telemetry_encoding_witness :
    ((28.1 : ℚ) = -999 ∨ (28.1 : ℚ) = -998 ∨ (-998 : ℚ) < 28.1) ∧
    ((75.3 : ℚ) = -999 ∨ (75.3 : ℚ) = -998 ∨ (-998 : ℚ) < 75.3) ∧
    (jsonZ2Field 28.1 = "null" ↔ ((28.1 : ℚ) = -999 ∨ (28.1 : ℚ) = -998)) := by
  have h1 : (28.1 : ℚ) = -999 ∨ (28.1 : ℚ) = -998 ∨ (-998 : ℚ) < 28.1 :=
    Or.inr (Or.inr (by norm_num))
  have h2 : (75.3 : ℚ) = -999 ∨ (75.3 : ℚ) = -998 ∨ (-998 : ℚ) < 75.3 :=
    Or.inr (Or.inr (by norm_num))
  exact ⟨h1, h2,
    (telemetry_encoding 32.4 (-1) 28.1 75.3 true true true h1 h2).2.2.2.2.2.1⟩

end Monitor
